import Mathlib

/-
Verification of the shelly-collection remote dimmer scripts.

The repository holds three variants of the same remote dimmer control
script for Shelly devices:
  - the multi-binding controller script (src/unnamed/part_000, function
    DimmerController, loader getConfiguration, helpers sendRequest,
    getLightStatus, switchLight, dimLight); referred to below as RD;
  - remote-dimmer2.js, a single-binding variant whose HTTP callbacks run
    unconditionally (it has no httpOk check); referred to below as RD2;
  - a client-driven ramp variant (src/unnamed/part_001) that steps the
    brightness itself on a repeating timer and tracks one timer handle;
    referred to below as P1.

The scripts run on a single-threaded cooperative event loop.  Each
handler or callback invocation is modelled as a pure function from the
mutable data record (plus, for P1, the set of armed host timers) to an
updated record together with the list of observable effects (HTTP
requests issued, timers armed, log lines printed) produced by that
invocation.  Completions of asynchronous HTTP calls and timer fires are
separate functions, mirroring the separate callbacks of the source.
Points where the JavaScript would throw (JSON.parse of a malformed body,
method access on a non-string value) are modelled explicitly as a crash
result.
-/

namespace ShellyDimmer

/-- The five state machine states (STATES in every variant). -/
inductive MState
| IDLE
| GET_LIGHT_STATUS
| WAITING_FOR_LONG_PUSH
| ENSURE_LIGHT_IS_ON
| DIMMING
deriving DecidableEq, Repr, Inhabited

/-- The valid state transitions table (TRANSITIONS, identical in all three
variants): for each source state the list of allowed destination states. -/
def TRANSITIONS : MState → List MState
| .IDLE => [.GET_LIGHT_STATUS, .IDLE]
| .GET_LIGHT_STATUS => [.WAITING_FOR_LONG_PUSH, .IDLE]
| .WAITING_FOR_LONG_PUSH => [.ENSURE_LIGHT_IS_ON, .IDLE]
| .ENSURE_LIGHT_IS_ON => [.DIMMING, .IDLE]
| .DIMMING => [.DIMMING, .IDLE]

/-- LONG_PUSH_TIME constant of part_000 (also CONFIG.longPushTime = 500 in the
other variants). -/
def LONG_PUSH_TIME : Int := 500

/-- LIGHT_ACTIONS.ON -/
def LIGHT_ACTIONS_ON : String := "on"

/-- LIGHT_ACTIONS.TOGGLE -/
def LIGHT_ACTIONS_TOGGLE : String := "toggle"

/-- DIMMER_ACTIONS.STOP -/
def DIMMER_ACTIONS_STOP : String := "stop"

/-- startsWith of part_000: str.substring(0, p.length) === p. -/
def startsWith (str p : String) : Bool := str.take p.length == p

/-- callOk of part_000: error_code === 0. -/
def callOk (ec : Int) : Bool := ec == 0

/-- A parsed light status body: the ison and brightness fields the scripts
read from the device response. -/
structure LightStatus where
  ison : Bool
  brightness : Int
deriving DecidableEq, Repr

/-- The body of an HTTP response as far as JSON.parse is concerned: either it
parses to a light status object or JSON.parse throws on it. -/
inductive JsonBody
| light (ls : LightStatus)
| malformed
deriving DecidableEq, Repr

/-- Outcome of JSON.parse on a response body; none models the thrown
SyntaxError. -/
def jsonParse : JsonBody → Option LightStatus
| .light ls => some ls
| .malformed => none

/-- An HTTP response as delivered to a Shelly.call callback: the Shelly call
error code, the HTTP status code and the body. -/
structure HttpResponse where
  errorCode : Int
  code : Int
  body : JsonBody
deriving DecidableEq, Repr

/-- httpOk of part_000: callOk(error_code) && 200 <= code < 300. -/
def httpOk (r : HttpResponse) : Bool :=
  callOk r.errorCode && (decide (200 ≤ r.code) && decide (r.code < 300))

/-- JS Math.round applied to a difference of Date.now() timestamps; both are
integers of milliseconds, so the rounding is the identity. -/
def mathRound (x : Int) : Int := x

/-- An observable effect of one handler or callback invocation: an HTTP GET
issued to the device (recorded as the endpoint path handed to sendRequest), a
timer armed via Timer.set, or a log line. -/
inductive Effect
| httpGet (path : String)
| timerSet (delayMs : Int) (repeating : Bool)
| print (msg : String)
deriving DecidableEq, Repr

/-- Endpoint path of getLightStatus. -/
def statusEndpoint : String := "light/0"

/-- Endpoint path of switchLight: light/0?turn=action. -/
def turnEndpoint (action : String) : String := "light/0?turn=" ++ action

/-- Endpoint path of dimLight: light/0?dim=action plus step unless stop. -/
def dimEndpoint (action : String) : String :=
  "light/0?dim=" ++ action ++ (if action != DIMMER_ACTIONS_STOP then "&step=100" else "")

/-- A resolved credential pair as stored in the KVS: an object with id and pw
fields. -/
structure AuthCred where
  id : String
  pw : String
deriving DecidableEq, Repr

/-- The device configuration used by sendRequest in part_000: the address and
the optional resolved credential. -/
structure DeviceConfig where
  addr : String
  auth : Option AuthCred
deriving DecidableEq, Repr

/-- The URL built by sendRequest of part_000:
http:// then user:pw@ when a credential is present, then addr/path. -/
def sendRequestUrl (endpointPath : String) (deviceConfig : DeviceConfig) : String :=
  "http://" ++
    (match deviceConfig.auth with
     | some a => a.id ++ ":" ++ a.pw ++ "@"
     | none => "") ++
    deviceConfig.addr ++ "/" ++ endpointPath

/-- An input event as delivered to a status handler: the component string and
the delta.state boolean. -/
structure InputEvent where
  component : String
  state : Bool
deriving DecidableEq, Repr

namespace RD

/-- Per-controller mutable data of DimmerController (part_000):
_state starts as null, hence the Option. -/
structure Ctrl where
  state : Option MState
  inputTriggerTime : Int
  dimmerAction : String
  lightStatus : Option LightStatus
deriving DecidableEq, Repr

/-- Initial controller data set up in the DimmerController constructor. -/
def initCtrl : Ctrl :=
  { state := none, inputTriggerTime := 0, dimmerAction := DIMMER_ACTIONS_STOP,
    lightStatus := none }

/-- Result of one synchronous invocation: the updated data together with the
effects it produced, or a thrown JS exception. -/
inductive StepResult
| ok (c : Ctrl) (effs : List Effect)
| crash
deriving DecidableEq, Repr

/-- The machine state after a step, when the step did not crash. -/
def StepResult.stateOf : StepResult → Option (Option MState)
| .ok c _ => some c.state
| .crash => none

/-- The guard at the top of transitionTo:
the request proceeds unless _state is non-null and the target is not listed in
the TRANSITIONS row of the current state. -/
def transitionAllowed (c : Ctrl) (target : MState) : Bool :=
  match c.state with
  | some s => (TRANSITIONS s).contains target
  | none => true

/-- enterIdle of DimmerController: clear the trigger timestamp and reset the
pending dimmer action.  (It cancels no timer: the controller keeps no timer
handle.) -/
def enterIdle (c : Ctrl) : Ctrl :=
  { c with inputTriggerTime := 0, dimmerAction := DIMMER_ACTIONS_STOP }

/-- Body of transitionTo of DimmerController, with the recursive call made by
enterEnsureLightIsOn abstracted as recur (the source calls this.transitionTo
there; the recursion is closed below with fuel, which the source never
exhausts since the only synchronous re-entry is ENSURE_LIGHT_IS_ON entering
DIMMING, whose entry action does not transition again).  Entry actions:
enterIdle, enterGetLightStatus (issues the status fetch),
enterWaitingForLongPush (arms the one-shot long push timer),
enterEnsureLightIsOn (switches the light on when it is off, else transitions
on to DIMMING), enterDimming (issues the dim request in the pending
direction).  Reading .ison of a null _lightStatus throws in JS, hence the
crash case. -/
def transitionBody (recur : Int → MState → Ctrl → StepResult)
    (now : Int) (target : MState) (c : Ctrl) : StepResult :=
  if transitionAllowed c target then
    let c1 : Ctrl := { c with state := some target }
    match target with
    | .IDLE => .ok (enterIdle c1) [.print "transitioning"]
    | .GET_LIGHT_STATUS => .ok c1 [.print "transitioning", .httpGet statusEndpoint]
    | .WAITING_FOR_LONG_PUSH =>
        .ok c1 [.print "transitioning",
          .timerSet (max 1 (LONG_PUSH_TIME - mathRound (now - c1.inputTriggerTime))) false]
    | .ENSURE_LIGHT_IS_ON =>
        match c1.lightStatus with
        | none => .crash
        | some ls =>
            if !ls.ison then
              .ok c1 [.print "transitioning", .httpGet (turnEndpoint LIGHT_ACTIONS_ON)]
            else
              match recur now .DIMMING c1 with
              | .ok c2 effs => .ok c2 (.print "transitioning" :: effs)
              | .crash => .crash
    | .DIMMING => .ok c1 [.print "transitioning", .httpGet (dimEndpoint c1.dimmerAction)]
  else .ok c []

/-- Fueled fixpoint of transitionBody. -/
def transitionToFuel : Nat → Int → MState → Ctrl → StepResult
| 0 => fun _ _ _ => .crash
| n + 1 => transitionBody (transitionToFuel n)

/-- transitionTo of DimmerController. -/
def transitionTo : Int → MState → Ctrl → StepResult := transitionToFuel 8

theorem rd_transitionTo_eq : transitionTo = transitionBody (transitionToFuel 7) := rfl

theorem rd_transitionToFuel_seven :
    transitionToFuel 7 = transitionBody (transitionToFuel 6) := rfl

/-- Callback of the status fetch issued by enterGetLightStatus: the getLightStatus
wrapper checks httpOk (on failure it logs and returns without invoking the
continuation), then JSON.parse of the body (throws on a malformed body), then
the continuation stores the parsed status in _lightStatus and requests the
transition to WAITING_FOR_LONG_PUSH. -/
def getLightStatusCb (now : Int) (r : HttpResponse) (c : Ctrl) : StepResult :=
  if !httpOk r then .ok c [.print "Failed to get light status"]
  else
    match jsonParse r.body with
    | none => .crash
    | some body =>
        match transitionTo now .WAITING_FOR_LONG_PUSH { c with lightStatus := some body } with
        | .ok c2 effs => .ok c2 (.print "getLightStatus" :: effs)
        | .crash => .crash

/-- Callback of the switchLight(TOGGLE) call issued on a short-press release:
switchLight checks httpOk (on failure it logs and returns without invoking the
continuation), parses the body, and the continuation stores the status and
requests the transition to IDLE. -/
def toggleReleaseCb (now : Int) (r : HttpResponse) (c : Ctrl) : StepResult :=
  if !httpOk r then .ok c [.print "Failed to switch light"]
  else
    match jsonParse r.body with
    | none => .crash
    | some body =>
        match transitionTo now .IDLE { c with lightStatus := some body } with
        | .ok c2 effs => .ok c2 (.print "switchLight" :: effs)
        | .crash => .crash

/-- Callback of the dimLight(STOP) call issued on a release during DIMMING:
dimLight checks httpOk (on failure it logs and returns without invoking the
continuation; it parses no body), and the continuation requests the transition
to IDLE. -/
def dimStopReleaseCb (now : Int) (r : HttpResponse) (c : Ctrl) : StepResult :=
  if !httpOk r then .ok c [.print "Failed to dim light"]
  else
    match transitionTo now .IDLE c with
    | .ok c2 effs => .ok c2 (.print "dimLight" :: effs)
    | .crash => .crash

/-- Fire of the one-shot timer armed by enterWaitingForLongPush: it requests
the transition to ENSURE_LIGHT_IS_ON. -/
def longPushTimerFire (now : Int) (c : Ctrl) : StepResult :=
  transitionTo now .ENSURE_LIGHT_IS_ON c

/-- handleInputEvent of DimmerController.  mapping is the per-binding _inputMapping
(channel index string to direction string); events whose component does not
start with input: or whose channel index is unmapped are ignored.  A press
first forces a transition to IDLE when not already there, records the trigger
time and the direction, and requests GET_LIGHT_STATUS.  A release issues the
toggle when the state is WAITING_FOR_LONG_PUSH or GET_LIGHT_STATUS, the dim
stop when it is DIMMING, and otherwise requests IDLE directly. -/
def handleInputEvent (mapping : List (String × String)) (now : Int)
    (e : InputEvent) (c : Ctrl) : StepResult :=
  if !startsWith e.component "input:" then .ok c []
  else
    match mapping.lookup (e.component.drop ("input:".length)) with
    | none => .ok c []
    | some dir =>
        if e.state then
          match (if c.state ≠ some MState.IDLE then transitionTo now .IDLE c
                 else .ok c []) with
          | .crash => .crash
          | .ok c1 effs1 =>
              let c2 : Ctrl := { c1 with inputTriggerTime := now, dimmerAction := dir }
              match transitionTo now .GET_LIGHT_STATUS c2 with
              | .ok c3 effs2 => .ok c3 (.print "input event" :: (effs1 ++ effs2))
              | .crash => .crash
        else
          if c.state = some MState.WAITING_FOR_LONG_PUSH ∨
             c.state = some MState.GET_LIGHT_STATUS then
            .ok c [.print "input event", .httpGet (turnEndpoint LIGHT_ACTIONS_TOGGLE)]
          else if c.state = some MState.DIMMING then
            .ok c [.print "input event", .httpGet (dimEndpoint DIMMER_ACTIONS_STOP)]
          else
            match transitionTo now .IDLE c with
            | .ok c1 effs => .ok c1 (.print "input event" :: effs)
            | .crash => .crash

end RD

namespace RD2

/-- Mutable DATA record of remote-dimmer2.js: state starts as null. -/
structure Ctrl where
  state : Option MState
  inputTriggerTime : Int
  inputAction : String
  lightIsOn : Bool
deriving DecidableEq, Repr

/-- Initial DATA of remote-dimmer2.js. -/
def initData : Ctrl :=
  { state := none, inputTriggerTime := 0, inputAction := DIMMER_ACTIONS_STOP,
    lightIsOn := false }

/-- CONFIG.inputMapping of remote-dimmer2.js, keyed by the full component
string. -/
def inputMapping : List (String × String) := [("input:0", "down"), ("input:1", "up")]

/-- CONFIG.longPushTime of remote-dimmer2.js. -/
def CONFIG_longPushTime : Int := 500

/-- The transitionTo guard of remote-dimmer2.js: proceed unless DATA.state is
non-null and the target is not listed in its TRANSITIONS row. -/
def transitionAllowed (c : Ctrl) (target : MState) : Bool :=
  match c.state with
  | some s => (TRANSITIONS s).contains target
  | none => true

/-- enterIdle of remote-dimmer2.js: clear the trigger timestamp and reset the
pending action; no timer is cancelled (no handle is kept). -/
def enterIdle (c : Ctrl) : Ctrl :=
  { c with inputTriggerTime := 0, inputAction := DIMMER_ACTIONS_STOP }

/-- Body of transitionTo of remote-dimmer2.js, recursion abstracted as recur
as for the part_000 controller.  Unlike part_000, the light state is the plain
boolean DATA.lightIsOn, so the ENSURE_LIGHT_IS_ON entry cannot throw. -/
def transitionBody (recur : Int → MState → Ctrl → Ctrl × List Effect)
    (now : Int) (target : MState) (c : Ctrl) : Ctrl × List Effect :=
  if transitionAllowed c target then
    let c1 : Ctrl := { c with state := some target }
    match target with
    | .IDLE => (enterIdle c1, [.print "transitioning"])
    | .GET_LIGHT_STATUS => (c1, [.print "transitioning", .httpGet statusEndpoint])
    | .WAITING_FOR_LONG_PUSH =>
        (c1, [.print "transitioning",
          .timerSet (max 1 (CONFIG_longPushTime - mathRound (now - c1.inputTriggerTime))) false])
    | .ENSURE_LIGHT_IS_ON =>
        if !c1.lightIsOn then
          (c1, [.print "transitioning", .httpGet (turnEndpoint LIGHT_ACTIONS_ON)])
        else
          let s := recur now .DIMMING c1
          (s.1, .print "transitioning" :: s.2)
    | .DIMMING => (c1, [.print "transitioning", .httpGet (dimEndpoint c1.inputAction)])
  else (c, [])

/-- Fueled fixpoint of transitionBody. -/
def transitionToFuel : Nat → Int → MState → Ctrl → Ctrl × List Effect
| 0 => fun _ _ c => (c, [])
| n + 1 => transitionBody (transitionToFuel n)

/-- transitionTo of remote-dimmer2.js. -/
def transitionTo : Int → MState → Ctrl → Ctrl × List Effect := transitionToFuel 8

theorem rd2_transitionTo_eq : transitionTo = transitionBody (transitionToFuel 7) := rfl

theorem rd2_transitionToFuel_seven :
    transitionToFuel 7 = transitionBody (transitionToFuel 6) := rfl

/-- Callback of the switchLight(TOGGLE) call issued on a short-press release in
remote-dimmer2.js.  The callback ignores the response entirely (there is no
httpOk check in this variant): it recomputes DATA.lightIsOn locally (for the
TOGGLE action this negates it) and the continuation requests the transition to
IDLE, whatever the outcome of the call was. -/
def toggleReleaseCb (now : Int) (_r : HttpResponse) (c : Ctrl) : Ctrl × List Effect :=
  let c1 : Ctrl := { c with lightIsOn := !c.lightIsOn }
  let s := transitionTo now .IDLE c1
  (s.1, .print "switchLight" :: s.2)

/-- Callback of the dimLight(STOP) call issued on a release during DIMMING in
remote-dimmer2.js.  The callback ignores the response entirely and the
continuation requests the transition to IDLE, whatever the outcome was. -/
def dimStopReleaseCb (now : Int) (_r : HttpResponse) (c : Ctrl) : Ctrl × List Effect :=
  let s := transitionTo now .IDLE c
  (s.1, .print "dimLight" :: s.2)

/-- handleInputEvent of remote-dimmer2.js.  The mapping is looked up by the
full component string. -/
def handleInputEvent (now : Int) (e : InputEvent) (c : Ctrl) : Ctrl × List Effect :=
  match inputMapping.lookup e.component with
  | none => (c, [])
  | some dir =>
      if e.state then
        let s1 := if c.state ≠ some MState.IDLE then transitionTo now .IDLE c else (c, [])
        let c2 : Ctrl := { s1.1 with inputTriggerTime := now, inputAction := dir }
        let s2 := transitionTo now .GET_LIGHT_STATUS c2
        (s2.1, .print "input event" :: (s1.2 ++ s2.2))
      else
        if c.state = some MState.WAITING_FOR_LONG_PUSH ∨
           c.state = some MState.GET_LIGHT_STATUS then
          (c, [.print "input event", .httpGet (turnEndpoint LIGHT_ACTIONS_TOGGLE)])
        else if c.state = some MState.DIMMING then
          (c, [.print "input event", .httpGet (dimEndpoint DIMMER_ACTIONS_STOP)])
        else
          let s := transitionTo now .IDLE c
          (s.1, .print "input event" :: s.2)

end RD2

namespace P1

/-- Kinds of timers the part_001 variant arms: the one-shot long push timer of
enterWaitingForLongPush and the repeating dimming loop timer of enterDimming. -/
inductive TimerKind
| longPush
| dimLoop
deriving DecidableEq, Repr

/-- Mutable DATA record of part_001 plus the host timer state: the armed
timers (handle and kind) and the next fresh handle Timer.set will return.
DATA.timerHandle is the one handle the script stores. -/
structure Ctrl where
  timerHandle : Option Nat
  inputTriggerTime : Int
  state : MState
  dimmerAction : String
  lightIsOn : Bool
  brightness : Int
  timers : List (Nat × TimerKind)
  nextTimerId : Nat
deriving DecidableEq, Repr

/-- CONFIG.minimumBrightness of part_001. -/
def CONFIG_minimumBrightness : Int := 25

/-- CONFIG.longPushTime of part_001. -/
def CONFIG_longPushTime : Int := 500

/-- CONFIG.updateInterval of part_001. -/
def CONFIG_updateInterval : Int := 250

/-- DIMMER_ACTIONS.BRIGHTEN of part_001. -/
def DIMMER_ACTIONS_BRIGHTEN : String := "brighten"

/-- DIMMER_ACTIONS.DARKEN of part_001. -/
def DIMMER_ACTIONS_DARKEN : String := "darken"

/-- Initial DATA of part_001, with no armed timers. -/
def initData : Ctrl :=
  { timerHandle := none, inputTriggerTime := 0, state := .IDLE,
    dimmerAction := DIMMER_ACTIONS_STOP, lightIsOn := false,
    brightness := CONFIG_minimumBrightness, timers := [], nextTimerId := 0 }

/-- Timer.clear on an optional handle: removes the armed timer with that
handle; clearing a null handle does nothing. -/
def timerClear (h : Option Nat) (ts : List (Nat × TimerKind)) : List (Nat × TimerKind) :=
  match h with
  | none => ts
  | some hid => ts.filter (fun p => p.1 != hid)

/-- Timer.set: arms a timer of the given kind and returns the fresh handle
together with the updated state. -/
def timerSet (k : TimerKind) (c : Ctrl) : Nat × Ctrl :=
  (c.nextTimerId,
   { c with timers := c.timers ++ [(c.nextTimerId, k)]
            nextTimerId := c.nextTimerId + 1 })

/-- turn endpoint of part_001: light/0/set?turn=action. -/
def turnEndpoint (turn : String) : String := "light/0/set?turn=" ++ turn

/-- enterIdle of part_001: Timer.clear(DATA.timerHandle) (which only ever holds
the dimming loop handle, see enterDimming, and is left unchanged here), then
clear the trigger timestamp and reset the dimmer action. -/
def enterIdle (c : Ctrl) : Ctrl :=
  { c with timers := timerClear c.timerHandle c.timers
           inputTriggerTime := 0
           dimmerAction := DIMMER_ACTIONS_STOP }

/-- Body of transitionTo of part_001, recursion abstracted as recur.
The guard has no null case: DATA.state starts as IDLE.  Entry actions:
enterIdle; enterGetLightStatus (issues the status fetch);
enterWaitingForLongPush (arms the one-shot long push timer WITHOUT storing its
handle — the Timer.set return value is discarded in the source);
enterEnsureLightIsOn; enterDimming (clears the stored handle and arms the
repeating dimming loop timer, storing its handle in DATA.timerHandle). -/
def transitionBody (recur : Int → MState → Ctrl → Ctrl × List Effect)
    (now : Int) (target : MState) (c : Ctrl) : Ctrl × List Effect :=
  if (TRANSITIONS c.state).contains target then
    let c1 : Ctrl := { c with state := target }
    match target with
    | .IDLE => (enterIdle c1, [])
    | .GET_LIGHT_STATUS => (c1, [.httpGet statusEndpoint])
    | .WAITING_FOR_LONG_PUSH =>
        let s := timerSet .longPush c1
        (s.2, [.timerSet (max 1 (CONFIG_longPushTime - mathRound (now - c1.inputTriggerTime))) false])
    | .ENSURE_LIGHT_IS_ON =>
        if !c1.lightIsOn then (c1, [.httpGet (turnEndpoint LIGHT_ACTIONS_ON)])
        else recur now .DIMMING c1
    | .DIMMING =>
        let c2 : Ctrl := { c1 with timers := timerClear c1.timerHandle c1.timers }
        let s := timerSet .dimLoop c2
        ({ s.2 with timerHandle := some s.1 }, [.timerSet CONFIG_updateInterval true])
  else (c, [])

/-- Fueled fixpoint of transitionBody. -/
def transitionToFuel : Nat → Int → MState → Ctrl → Ctrl × List Effect
| 0 => fun _ _ c => (c, [])
| n + 1 => transitionBody (transitionToFuel n)

/-- transitionTo of part_001. -/
def transitionTo : Int → MState → Ctrl → Ctrl × List Effect := transitionToFuel 8

theorem p1_transitionTo_eq : transitionTo = transitionBody (transitionToFuel 7) := rfl

theorem p1_transitionToFuel_seven :
    transitionToFuel 7 = transitionBody (transitionToFuel 6) := rfl

/-- Callback of the status fetch of part_001: JSON.parse of the body is
unconditional (none models the thrown exception; there is no httpOk check in
this variant); on a parsed body the fields are recorded and the continuation
requests the transition to WAITING_FOR_LONG_PUSH. -/
def getLightStatusCb (now : Int) (r : HttpResponse) (c : Ctrl) :
    Option (Ctrl × List Effect) :=
  match jsonParse r.body with
  | none => none
  | some body =>
      let c1 : Ctrl := { c with lightIsOn := body.ison, brightness := body.brightness }
      let s := transitionTo now .WAITING_FOR_LONG_PUSH c1
      some (s.1, .print "finished getLightStatus" :: s.2)

/-- The status handler of part_001 (Shelly.addStatusHandler callback).  Only
components input:0 and input:1 are handled.  A press resets to IDLE when
needed, records the trigger time and direction, and requests
GET_LIGHT_STATUS.  A release acts ONLY when the state is
WAITING_FOR_LONG_PUSH: it first transitions to IDLE and then issues
switchLight(toggle); releases in any other state, DIMMING and
GET_LIGHT_STATUS included, do nothing. -/
def handleStatusEvent (now : Int) (e : InputEvent) (c : Ctrl) : Ctrl × List Effect :=
  if e.component == "input:0" || e.component == "input:1" then
    if e.state then
      let s1 := if c.state ≠ MState.IDLE then transitionTo now .IDLE c else (c, [])
      let c2 : Ctrl :=
        { s1.1 with
          inputTriggerTime := now
          dimmerAction := if e.component == "input:1" then DIMMER_ACTIONS_BRIGHTEN
                          else DIMMER_ACTIONS_DARKEN }
      let s2 := transitionTo now .GET_LIGHT_STATUS c2
      (s2.1, s1.2 ++ s2.2)
    else
      if c.state = MState.WAITING_FOR_LONG_PUSH then
        let s := transitionTo now .IDLE c
        (s.1, s.2 ++ [.httpGet (turnEndpoint LIGHT_ACTIONS_TOGGLE)])
      else (c, [])
  else (c, [])

end P1

namespace Loader

/-- The raw dev.auth value of one configuration entry as read from the KVS:
null, an inline credential object, or a string (an indirect reference when it
starts with an at sign). -/
inductive RawAuth
| null0
| inline (cred : AuthCred)
| ref (s : String)
deriving DecidableEq, Repr

/-- JS truthiness of the raw auth value: null is falsy, an object is truthy, a
string is truthy unless empty. -/
def authTruthy : RawAuth → Bool
| .null0 => false
| .inline _ => true
| .ref s => s != ""

/-- Whether the raw auth value is an inline credential object. -/
def isInline : RawAuth → Bool
| .inline _ => true
| _ => false

/-- The dev object of one configuration entry. -/
structure RawDev where
  addr : String
  auth : RawAuth
deriving DecidableEq, Repr

/-- One configuration entry of the remote-dimmer-config list. -/
structure RawConfig where
  id : String
  btn : List (String × String)
  dev : RawDev
deriving DecidableEq, Repr

/-- The indirect-reference test of getConfiguration:
config.dev.auth && startsWith(config.dev.auth, "@").  startsWith calls
substring on its first argument, so a truthy non-string value (an inline
credential object) makes it throw; none models that thrown TypeError. -/
def indirectTest (a : RawAuth) : Option Bool :=
  if authTruthy a then
    match a with
    | .ref s => some (startsWith s "@")
    | _ => none
  else some false

/-- Loader state during getConfiguration: the configuration list (mutated in
place by the credential completion callbacks), the toProcess counter, and how
often the ready callback has been invoked. -/
structure LoaderState where
  configs : List RawConfig
  toProcess : Int
  fired : Nat
deriving DecidableEq, Repr

/-- proceedIfAllProcessed of getConfiguration: when toProcess reaches 0 it is
set to -1 and the ready callback is invoked (counted in fired). -/
def proceedIfAllProcessed (st : LoaderState) : LoaderState :=
  if st.toProcess = 0 then { st with toProcess := -1, fired := st.fired + 1 } else st

/-- The synchronous for-loop of getConfiguration over the configuration list:
an entry passing the indirect test starts one asynchronous KVS lookup (counted
in the returned pending count; toProcess is left for its completion callback
to decrement), any other entry decrements toProcess at once.  Returns the
value of toProcess after the loop together with the number of outstanding
lookups, or none when the indirect test threw. -/
def scanLoop : List RawConfig → Int → Option (Int × Nat)
| [], t => some (t, 0)
| cfg :: rest, t =>
    match indirectTest cfg.dev.auth with
    | none => none
    | some true =>
        match scanLoop rest t with
        | none => none
        | some (t2, p) => some (t2, p + 1)
    | some false => scanLoop rest (t - 1)

/-- getConfiguration after the configuration KVS read succeeded and parsed:
toProcess starts at configurations.length, the loop runs, then
proceedIfAllProcessed is called once at its end.  Returns the loader state and
the number of outstanding credential lookups, or none when the loop threw. -/
def loaderStart (cfgs : List RawConfig) : Option (LoaderState × Nat) :=
  match scanLoop cfgs (cfgs.length : Int) with
  | none => none
  | some (t, p) =>
      some (proceedIfAllProcessed { configs := cfgs, toProcess := t, fired := 0 }, p)

/-- Replace the dev.auth of the i-th configuration entry. -/
def setAuth : List RawConfig → Nat → RawAuth → List RawConfig
| [], _, _ => []
| cfg :: rest, 0, a => { cfg with dev := { cfg.dev with auth := a } } :: rest
| cfg :: rest, i + 1, a => cfg :: setAuth rest i a

/-- Outcome stored by one credential lookup callback: the parsed credential on
success (this.dev.auth = JSON.parse(response.value)), null on failure
(this.dev.auth = null). -/
def resolveAuthResult : Option AuthCred → RawAuth
| some cred => .inline cred
| none => .null0

/-- The completion callback of the credential lookup bound to configuration i:
store the outcome in that configuration, decrement toProcess, then
proceedIfAllProcessed. -/
def completeOne (i : Nat) (res : Option AuthCred) (st : LoaderState) : LoaderState :=
  proceedIfAllProcessed
    { st with
      configs := setAuth st.configs i (resolveAuthResult res)
      toProcess := st.toProcess - 1 }

/-- A sequence of credential lookup completions, applied in order (the event
loop delivers them one at a time, in any order). -/
def runCompletions (l : List (Nat × Option AuthCred)) (st : LoaderState) : LoaderState :=
  l.foldl (fun s p => completeOne p.1 p.2 s) st

/-- The device auth as consumed by sendRequest once loading is done: an inline
credential object is used, null gives no credential.  (A plain string
reference that was never rewritten does not occur on the resolved paths
considered here.) -/
def authToOpt : RawAuth → Option AuthCred
| .inline cred => some cred
| _ => none

/-- The DeviceConfig handed to a DimmerController for a configuration entry. -/
def devConfigOf (cfg : RawConfig) : DeviceConfig :=
  { addr := cfg.dev.addr, auth := authToOpt cfg.dev.auth }

/-- One constructed DimmerController instance: the fields stored by the
constructor plus its initial mutable state. -/
structure Controller where
  id : String
  inputMapping : List (String × String)
  deviceConfig : DeviceConfig
  ctrl : RD.Ctrl
deriving DecidableEq, Repr

/-- new DimmerController(id, btn, dev). -/
def mkController (cid : String) (mapping : List (String × String))
    (dev : DeviceConfig) : Controller :=
  { id := cid, inputMapping := mapping, deviceConfig := dev, ctrl := RD.initCtrl }

/-- The for-loop of main in part_000: one controller per configuration entry,
with id config.id when truthy (non-empty), else dimmer-i. -/
def mainControllersAux : Nat → List RawConfig → List Controller
| _, [] => []
| i, cfg :: rest =>
    mkController (if cfg.id != "" then cfg.id else "dimmer-" ++ toString i)
        cfg.btn (devConfigOf cfg) ::
      mainControllersAux (i + 1) rest

/-- main of part_000 once the resolved configuration list arrives. -/
def mainControllers (cfgs : List RawConfig) : List Controller :=
  mainControllersAux 0 cfgs

end Loader

/-- C1: for every current state s and requested destination d, if d is not in
the TRANSITIONS row of s then transitionTo(d) leaves the data record unchanged
and produces no effect at all (no device call, no timer, not even a log
line), in all three variants; hence the state only ever changes along edges of
the table. -/
theorem claim_C1_invalid_transition_noop :
    (∀ (now : Int) (d : MState) (c : RD.Ctrl) (s : MState),
        c.state = some s → (TRANSITIONS s).contains d = false →
        RD.transitionTo now d c = .ok c []) ∧
    (∀ (now : Int) (d : MState) (c : RD2.Ctrl) (s : MState),
        c.state = some s → (TRANSITIONS s).contains d = false →
        RD2.transitionTo now d c = (c, [])) ∧
    (∀ (now : Int) (d : MState) (c : P1.Ctrl),
        (TRANSITIONS c.state).contains d = false →
        P1.transitionTo now d c = (c, [])) := by
  refine ⟨?_, ?_, ?_⟩
  · intro now d c s hs hd
    have hd2 : d ∉ TRANSITIONS s := by simpa using hd
    simp [RD.rd_transitionTo_eq, RD.transitionBody, RD.transitionAllowed, hs, hd2]
  · intro now d c s hs hd
    have hd2 : d ∉ TRANSITIONS s := by simpa using hd
    simp [RD2.rd2_transitionTo_eq, RD2.transitionBody, RD2.transitionAllowed, hs, hd2]
  · intro now d c hd
    have hd2 : d ∉ TRANSITIONS c.state := by simpa using hd
    simp [P1.p1_transitionTo_eq, P1.transitionBody, hd2]

/-- C1 witness: from IDLE, a request for DIMMING (not in the IDLE row) is a
no-op in the part_000 controller. -/
theorem claim_C1_witness :
    RD.transitionTo 0 .DIMMING { RD.initCtrl with state := some MState.IDLE } =
      .ok { RD.initCtrl with state := some MState.IDLE } [] :=
  claim_C1_invalid_transition_noop.1 0 .DIMMING
    { RD.initCtrl with state := some MState.IDLE } MState.IDLE rfl (by decide)

/-- C5: a stale status-fetch completion (a successfully parsed response whose
continuation requests WAITING_FOR_LONG_PUSH) arriving after the part_000
controller has been reset to IDLE never changes the machine state: the
transition request is rejected by the table and the state stays IDLE. -/
theorem claim_C5_stale_fetch_keeps_idle (now : Int) (r : HttpResponse)
    (ls : LightStatus) (c : RD.Ctrl) (hb : r.body = .light ls)
    (h : c.state = some MState.IDLE) :
    (RD.getLightStatusCb now r c).stateOf = some (some MState.IDLE) := by
  have hcon : MState.WAITING_FOR_LONG_PUSH ∉ TRANSITIONS MState.IDLE := by
    decide
  cases hok : httpOk r with
  | false =>
      simp [RD.getLightStatusCb, hok, RD.StepResult.stateOf, h]
  | true =>
      simp [RD.getLightStatusCb, hok, hb, jsonParse, RD.rd_transitionTo_eq,
        RD.transitionBody, RD.transitionAllowed, h, hcon, RD.StepResult.stateOf]

/-- C5 witness: a concrete stale completion at IDLE leaves the state IDLE. -/
theorem claim_C5_witness :
    (RD.getLightStatusCb 700
        { errorCode := 0, code := 200, body := .light { ison := true, brightness := 40 } }
        { state := some MState.IDLE, inputTriggerTime := 0, dimmerAction := "stop",
          lightStatus := none }).stateOf = some (some MState.IDLE) :=
  claim_C5_stale_fetch_keeps_idle 700
    { errorCode := 0, code := 200, body := .light { ison := true, brightness := 40 } }
    { ison := true, brightness := 40 }
    { state := some MState.IDLE, inputTriggerTime := 0, dimmerAction := "stop",
      lightStatus := none } rfl rfl

/-- C8: on entering WAITING_FOR_LONG_PUSH (from GET_LIGHT_STATUS), the one-shot
timer is armed for exactly max(1, longPushTime - round(now - inputTriggerTime))
milliseconds, in the part_000 controller and in part_001; with threshold 500
and a press at t=0 whose fetch completes at t=120 the delay is 380; and the
delay is always at least 1. -/
theorem claim_C8_long_push_timer_delay :
    (∀ (now : Int) (c : RD.Ctrl), c.state = some MState.GET_LIGHT_STATUS →
        RD.transitionTo now .WAITING_FOR_LONG_PUSH c =
          .ok { c with state := some MState.WAITING_FOR_LONG_PUSH }
            [.print "transitioning",
             .timerSet (max 1 (LONG_PUSH_TIME - mathRound (now - c.inputTriggerTime))) false]) ∧
    (∀ (now : Int) (c : P1.Ctrl), c.state = MState.GET_LIGHT_STATUS →
        (P1.transitionTo now .WAITING_FOR_LONG_PUSH c).2 =
          [.timerSet (max 1 (P1.CONFIG_longPushTime - mathRound (now - c.inputTriggerTime))) false]) ∧
    max 1 (LONG_PUSH_TIME - mathRound ((120 : Int) - 0)) = 380 ∧
    (∀ now t : Int, 1 ≤ max 1 (LONG_PUSH_TIME - mathRound (now - t))) := by
  have hmem : MState.WAITING_FOR_LONG_PUSH ∈ TRANSITIONS MState.GET_LIGHT_STATUS := by decide
  refine ⟨?_, ?_, by norm_num [LONG_PUSH_TIME, mathRound], fun now t => le_max_left 1 _⟩
  · intro now c h
    simp [RD.rd_transitionTo_eq, RD.transitionBody, RD.transitionAllowed, h, hmem]
  · intro now c h
    simp [P1.p1_transitionTo_eq, P1.transitionBody, h, hmem]

/-- C8 witness: concrete instance of the 380 ms scenario in the part_000
controller. -/
theorem claim_C8_witness :
    RD.transitionTo 120 .WAITING_FOR_LONG_PUSH
        { state := some MState.GET_LIGHT_STATUS, inputTriggerTime := 0,
          dimmerAction := "up", lightStatus := some { ison := false, brightness := 25 } } =
      .ok { state := some MState.WAITING_FOR_LONG_PUSH, inputTriggerTime := 0,
            dimmerAction := "up", lightStatus := some { ison := false, brightness := 25 } }
        [.print "transitioning",
         .timerSet (max 1 (LONG_PUSH_TIME - mathRound ((120 : Int) - 0))) false] :=
  claim_C8_long_push_timer_delay.1 120
    { state := some MState.GET_LIGHT_STATUS, inputTriggerTime := 0,
      dimmerAction := "up", lightStatus := some { ison := false, brightness := 25 } } rfl

/-- C10: in the device-resident-ramp variants (part_000 controller,
remote-dimmer2), a press arriving while the state is DIMMING resets the
machine to IDLE and starts a new cycle (ending in GET_LIGHT_STATUS with the
new trigger time and direction), and the device calls issued while handling
that press are exactly one status fetch: no dim(STOP) request is among them,
so the device-side ramp is not stopped by the new press. -/
theorem claim_C10_press_during_dimming_sends_no_stop :
    (∀ (mapping : List (String × String)) (now : Int) (e : InputEvent) (c : RD.Ctrl)
        (dir : String),
        startsWith e.component "input:" = true →
        mapping.lookup (e.component.drop ("input:".length)) = some dir →
        e.state = true → c.state = some MState.DIMMING →
        RD.handleInputEvent mapping now e c =
          .ok { state := some MState.GET_LIGHT_STATUS, inputTriggerTime := now,
                dimmerAction := dir, lightStatus := c.lightStatus }
            [.print "input event", .print "transitioning", .print "transitioning",
             .httpGet statusEndpoint]) ∧
    (∀ (now : Int) (e : InputEvent) (c : RD2.Ctrl) (dir : String),
        RD2.inputMapping.lookup e.component = some dir →
        e.state = true → c.state = some MState.DIMMING →
        RD2.handleInputEvent now e c =
          ({ state := some MState.GET_LIGHT_STATUS, inputTriggerTime := now,
             inputAction := dir, lightIsOn := c.lightIsOn },
           [.print "input event", .print "transitioning", .print "transitioning",
            .httpGet statusEndpoint])) ∧
    Effect.httpGet (dimEndpoint DIMMER_ACTIONS_STOP) ∉
      [Effect.print "input event", Effect.print "transitioning", Effect.print "transitioning",
       Effect.httpGet statusEndpoint] := by
  have h1 : MState.IDLE ∈ TRANSITIONS MState.DIMMING := by decide
  have h2 : MState.GET_LIGHT_STATUS ∈ TRANSITIONS MState.IDLE := by decide
  refine ⟨?_, ?_, by decide⟩
  · intro mapping now e c dir hs hm hp hd
    simp [RD.handleInputEvent, hs, hm, hp, hd, RD.rd_transitionTo_eq, RD.transitionBody,
      RD.transitionAllowed, RD.enterIdle, h1, h2]
  · intro now e c dir hm hp hd
    simp [RD2.handleInputEvent, hm, hp, hd, RD2.rd2_transitionTo_eq, RD2.transitionBody,
      RD2.transitionAllowed, RD2.enterIdle, h1, h2]

/-- C10 witness: a concrete press on channel 0 during DIMMING in the part_000
controller. -/
theorem claim_C10_witness :
    RD.handleInputEvent [("0", "down"), ("1", "up")] 900
        { component := "input:0", state := true }
        { state := some MState.DIMMING, inputTriggerTime := 10, dimmerAction := "up",
          lightStatus := some { ison := true, brightness := 60 } } =
      .ok { state := some MState.GET_LIGHT_STATUS, inputTriggerTime := 900,
            dimmerAction := "down", lightStatus := some { ison := true, brightness := 60 } }
        [.print "input event", .print "transitioning", .print "transitioning",
         .httpGet statusEndpoint] :=
  claim_C10_press_during_dimming_sends_no_stop.1 [("0", "down"), ("1", "up")] 900
    { component := "input:0", state := true }
    { state := some MState.DIMMING, inputTriggerTime := 10, dimmerAction := "up",
      lightStatus := some { ison := true, brightness := 60 } } "down" rfl rfl rfl rfl

/-- A reachable part_001 state in the middle of a dimming ramp: the dimming
loop timer (handle 1) is armed and stored, a press on input:1 triggered the
cycle. -/
def cexC2Ctrl : P1.Ctrl :=
  { timerHandle := some 1, inputTriggerTime := 100, state := MState.DIMMING,
    dimmerAction := P1.DIMMER_ACTIONS_BRIGHTEN, lightIsOn := true, brightness := 50,
    timers := [(1, P1.TimerKind.dimLoop)], nextTimerId := 2 }

/-- C2 counterexample: in the client-driven variant (part_001), a release edge
on a mapped channel arriving while the state is DIMMING is ignored: the
handler returns the state unchanged with no effect at all — no dim stop, no
cancellation of the ramp timer (it stays armed) — and the machine does not end
in IDLE, contradicting the claim. -/
theorem claim_C2_counterexample :
    P1.handleStatusEvent 600 { component := "input:1", state := false } cexC2Ctrl =
      (cexC2Ctrl, []) ∧
    cexC2Ctrl.state ≠ MState.IDLE ∧
    cexC2Ctrl.timers = [(1, P1.TimerKind.dimLoop)] :=
  ⟨rfl, by decide, rfl⟩

/-- C2 amended: in the device-resident-ramp variants a release during DIMMING
issues exactly one dim(STOP) device call, and the machine moves to IDLE when
the dim call completes — in remote-dimmer2 regardless of the call outcome, in
the part_000 controller on success (a failed dim-stop call leaves the record
unchanged, only logging).  In the client-driven part_001 variant the release
is ignored: no ramp cancellation and no transition occurs. -/
theorem claim_C2_release_during_dimming_amended :
    (∀ (mapping : List (String × String)) (now : Int) (e : InputEvent) (c : RD.Ctrl)
        (dir : String),
        startsWith e.component "input:" = true →
        mapping.lookup (e.component.drop ("input:".length)) = some dir →
        e.state = false → c.state = some MState.DIMMING →
        RD.handleInputEvent mapping now e c =
          .ok c [.print "input event", .httpGet (dimEndpoint DIMMER_ACTIONS_STOP)]) ∧
    (∀ (now : Int) (r : HttpResponse) (c : RD.Ctrl),
        httpOk r = true → c.state = some MState.DIMMING →
        (RD.dimStopReleaseCb now r c).stateOf = some (some MState.IDLE)) ∧
    (∀ (now : Int) (r : HttpResponse) (c : RD.Ctrl), httpOk r = false →
        RD.dimStopReleaseCb now r c = .ok c [.print "Failed to dim light"]) ∧
    (∀ (now : Int) (e : InputEvent) (c : RD2.Ctrl) (dir : String),
        RD2.inputMapping.lookup e.component = some dir →
        e.state = false → c.state = some MState.DIMMING →
        RD2.handleInputEvent now e c =
          (c, [.print "input event", .httpGet (dimEndpoint DIMMER_ACTIONS_STOP)])) ∧
    (∀ (now : Int) (r : HttpResponse) (c : RD2.Ctrl), c.state = some MState.DIMMING →
        (RD2.dimStopReleaseCb now r c).1.state = some MState.IDLE) ∧
    (∀ (now : Int) (e : InputEvent) (c : P1.Ctrl),
        (e.component = "input:0" ∨ e.component = "input:1") →
        e.state = false → c.state = MState.DIMMING →
        P1.handleStatusEvent now e c = (c, [])) := by
  have h1 : MState.IDLE ∈ TRANSITIONS MState.DIMMING := by decide
  refine ⟨?_, ?_, ?_, ?_, ?_, ?_⟩
  · intro mapping now e c dir hs hm hp hd
    simp [RD.handleInputEvent, hs, hm, hp, hd]
  · intro now r c hok hd
    simp [RD.dimStopReleaseCb, hok, RD.rd_transitionTo_eq, RD.transitionBody,
      RD.transitionAllowed, RD.enterIdle, hd, h1, RD.StepResult.stateOf]
  · intro now r c hok
    simp [RD.dimStopReleaseCb, hok]
  · intro now e c dir hm hp hd
    simp [RD2.handleInputEvent, hm, hp, hd]
  · intro now r c hd
    simp [RD2.dimStopReleaseCb, RD2.rd2_transitionTo_eq, RD2.transitionBody,
      RD2.transitionAllowed, RD2.enterIdle, hd, h1]
  · intro now e c hc hp hd
    rcases hc with hc | hc <;> simp [P1.handleStatusEvent, hc, hp, hd]

/-- C2 witness: a concrete release during DIMMING in the part_000 controller
issues exactly one dim stop request. -/
theorem claim_C2_witness :
    RD.handleInputEvent [("0", "down"), ("1", "up")] 800
        { component := "input:1", state := false }
        { state := some MState.DIMMING, inputTriggerTime := 10, dimmerAction := "up",
          lightStatus := some { ison := true, brightness := 60 } } =
      .ok { state := some MState.DIMMING, inputTriggerTime := 10, dimmerAction := "up",
            lightStatus := some { ison := true, brightness := 60 } }
        [.print "input event", .httpGet (dimEndpoint DIMMER_ACTIONS_STOP)] :=
  claim_C2_release_during_dimming_amended.1 [("0", "down"), ("1", "up")] 800
    { component := "input:1", state := false }
    { state := some MState.DIMMING, inputTriggerTime := 10, dimmerAction := "up",
      lightStatus := some { ison := true, brightness := 60 } } "up" rfl rfl rfl rfl

/-- A part_000 controller waiting for the long push after a press on channel 1
at t=0 whose status fetch has completed. -/
def cexC3Ctrl : RD.Ctrl :=
  { state := some MState.WAITING_FOR_LONG_PUSH, inputTriggerTime := 0,
    dimmerAction := "up", lightStatus := some { ison := false, brightness := 25 } }

/-- C3 counterexample: in the part_000 controller a release during
WAITING_FOR_LONG_PUSH issues the setPower(TOGGLE) call, but when that call
fails (here a transport error, error_code non-zero) switchLight logs and
returns without invoking the continuation, so no transition to IDLE happens:
the machine does NOT end in IDLE regardless of the toggle outcome, it stays in
WAITING_FOR_LONG_PUSH. -/
theorem claim_C3_counterexample :
    RD.handleInputEvent [("0", "down"), ("1", "up")] 200
        { component := "input:1", state := false } cexC3Ctrl =
      .ok cexC3Ctrl [.print "input event", .httpGet (turnEndpoint LIGHT_ACTIONS_TOGGLE)] ∧
    RD.toggleReleaseCb 200 { errorCode := -114, code := 0, body := .malformed } cexC3Ctrl =
      .ok cexC3Ctrl [.print "Failed to switch light"] ∧
    cexC3Ctrl.state ≠ some MState.IDLE :=
  ⟨rfl, rfl, by decide⟩

/-- C3 amended: in the part_000 controller and remote-dimmer2, a release
during GET_LIGHT_STATUS or WAITING_FOR_LONG_PUSH issues exactly one
setPower(TOGGLE) call; the machine then ends in IDLE when the toggle call
completes — in remote-dimmer2 regardless of the outcome, in the part_000
controller on success (a failed toggle leaves the state where it was, only
logging).  In part_001 only a release during WAITING_FOR_LONG_PUSH toggles
(transitioning to IDLE first); a release during GET_LIGHT_STATUS is
ignored. -/
theorem claim_C3_short_press_toggle_amended :
    (∀ (mapping : List (String × String)) (now : Int) (e : InputEvent) (c : RD.Ctrl)
        (dir : String),
        startsWith e.component "input:" = true →
        mapping.lookup (e.component.drop ("input:".length)) = some dir →
        e.state = false →
        (c.state = some MState.WAITING_FOR_LONG_PUSH ∨
         c.state = some MState.GET_LIGHT_STATUS) →
        RD.handleInputEvent mapping now e c =
          .ok c [.print "input event", .httpGet (turnEndpoint LIGHT_ACTIONS_TOGGLE)]) ∧
    (∀ (now : Int) (r : HttpResponse) (ls : LightStatus) (c : RD.Ctrl),
        httpOk r = true → r.body = .light ls →
        (c.state = some MState.WAITING_FOR_LONG_PUSH ∨
         c.state = some MState.GET_LIGHT_STATUS) →
        (RD.toggleReleaseCb now r c).stateOf = some (some MState.IDLE)) ∧
    (∀ (now : Int) (r : HttpResponse) (c : RD.Ctrl), httpOk r = false →
        RD.toggleReleaseCb now r c = .ok c [.print "Failed to switch light"]) ∧
    (∀ (now : Int) (e : InputEvent) (c : RD2.Ctrl) (dir : String),
        RD2.inputMapping.lookup e.component = some dir →
        e.state = false →
        (c.state = some MState.WAITING_FOR_LONG_PUSH ∨
         c.state = some MState.GET_LIGHT_STATUS) →
        RD2.handleInputEvent now e c =
          (c, [.print "input event", .httpGet (turnEndpoint LIGHT_ACTIONS_TOGGLE)])) ∧
    (∀ (now : Int) (r : HttpResponse) (c : RD2.Ctrl),
        (c.state = some MState.WAITING_FOR_LONG_PUSH ∨
         c.state = some MState.GET_LIGHT_STATUS) →
        (RD2.toggleReleaseCb now r c).1.state = some MState.IDLE) ∧
    (∀ (now : Int) (e : InputEvent) (c : P1.Ctrl),
        (e.component = "input:0" ∨ e.component = "input:1") → e.state = false →
        c.state = MState.WAITING_FOR_LONG_PUSH →
        (P1.handleStatusEvent now e c).1.state = MState.IDLE ∧
        (P1.handleStatusEvent now e c).2 =
          [Effect.httpGet (P1.turnEndpoint LIGHT_ACTIONS_TOGGLE)]) ∧
    (∀ (now : Int) (e : InputEvent) (c : P1.Ctrl),
        (e.component = "input:0" ∨ e.component = "input:1") → e.state = false →
        c.state = MState.GET_LIGHT_STATUS →
        P1.handleStatusEvent now e c = (c, [])) := by
  have h1 : MState.IDLE ∈ TRANSITIONS MState.WAITING_FOR_LONG_PUSH := by decide
  have h2 : MState.IDLE ∈ TRANSITIONS MState.GET_LIGHT_STATUS := by decide
  refine ⟨?_, ?_, ?_, ?_, ?_, ?_, ?_⟩
  · intro mapping now e c dir hs hm hp hd
    rcases hd with hd | hd <;> simp [RD.handleInputEvent, hs, hm, hp, hd]
  · intro now r ls c hok hb hd
    rcases hd with hd | hd <;>
      simp [RD.toggleReleaseCb, hok, hb, jsonParse, RD.rd_transitionTo_eq, RD.transitionBody,
        RD.transitionAllowed, RD.enterIdle, hd, h1, h2, RD.StepResult.stateOf]
  · intro now r c hok
    simp [RD.toggleReleaseCb, hok]
  · intro now e c dir hm hp hd
    rcases hd with hd | hd <;> simp [RD2.handleInputEvent, hm, hp, hd]
  · intro now r c hd
    rcases hd with hd | hd <;>
      simp [RD2.toggleReleaseCb, RD2.rd2_transitionTo_eq, RD2.transitionBody,
        RD2.transitionAllowed, RD2.enterIdle, hd, h1, h2]
  · intro now e c hc hp hd
    rcases hc with hc | hc <;>
      simp [P1.handleStatusEvent, hc, hp, hd, P1.p1_transitionTo_eq, P1.transitionBody,
        P1.enterIdle, h1]
  · intro now e c hc hp hd
    rcases hc with hc | hc <;> simp [P1.handleStatusEvent, hc, hp, hd]

/-- C3 witness: a concrete short-press release during GET_LIGHT_STATUS in the
part_000 controller issues exactly one toggle request. -/
theorem claim_C3_witness :
    RD.handleInputEvent [("0", "down"), ("1", "up")] 150
        { component := "input:0", state := false }
        { state := some MState.GET_LIGHT_STATUS, inputTriggerTime := 0,
          dimmerAction := "down", lightStatus := none } =
      .ok { state := some MState.GET_LIGHT_STATUS, inputTriggerTime := 0,
            dimmerAction := "down", lightStatus := none }
        [.print "input event", .httpGet (turnEndpoint LIGHT_ACTIONS_TOGGLE)] :=
  claim_C3_short_press_toggle_amended.1 [("0", "down"), ("1", "up")] 150
    { component := "input:0", state := false }
    { state := some MState.GET_LIGHT_STATUS, inputTriggerTime := 0,
      dimmerAction := "down", lightStatus := none } "down" rfl rfl rfl (Or.inr rfl)

/-- part_001 state after a press on input:1 at t=0 from the initial state. -/
def cexC4Pressed : P1.Ctrl :=
  { timerHandle := none, inputTriggerTime := 0, state := MState.GET_LIGHT_STATUS,
    dimmerAction := P1.DIMMER_ACTIONS_BRIGHTEN, lightIsOn := false,
    brightness := P1.CONFIG_minimumBrightness, timers := [], nextTimerId := 0 }

/-- part_001 state after the status fetch completes at t=120: waiting for the
long push, with the one-shot long push timer (handle 0) armed but its handle
NOT stored in DATA.timerHandle. -/
def cexC4Waiting : P1.Ctrl :=
  { timerHandle := none, inputTriggerTime := 0, state := MState.WAITING_FOR_LONG_PUSH,
    dimmerAction := P1.DIMMER_ACTIONS_BRIGHTEN, lightIsOn := true, brightness := 50,
    timers := [(0, P1.TimerKind.longPush)], nextTimerId := 1 }

/-- part_001 state after the release at t=200 re-entered IDLE: the long push
timer is STILL armed. -/
def cexC4Idle : P1.Ctrl :=
  { timerHandle := none, inputTriggerTime := 0, state := MState.IDLE,
    dimmerAction := DIMMER_ACTIONS_STOP, lightIsOn := true, brightness := 50,
    timers := [(0, P1.TimerKind.longPush)], nextTimerId := 1 }

/-- C4 counterexample: a concrete part_001 run — press input:1 at t=0, status
fetch succeeds at t=120 (light on, brightness 50) entering
WAITING_FOR_LONG_PUSH and arming the long push one-shot timer, release at
t=200 re-entering IDLE.  Entry into IDLE does NOT cancel the outstanding long
push timer: Timer.clear only gets DATA.timerHandle, and enterWaitingForLongPush
never stored the handle, so the timer stays armed and can still fire after the
machine is back in IDLE — contradicting the claim. -/
theorem claim_C4_counterexample :
    P1.handleStatusEvent 0 { component := "input:1", state := true } P1.initData =
      (cexC4Pressed, [.httpGet statusEndpoint]) ∧
    P1.getLightStatusCb 120 { errorCode := 0, code := 200, body := .light { ison := true, brightness := 50 } }
        cexC4Pressed =
      some (cexC4Waiting, [.print "finished getLightStatus", .timerSet 380 false]) ∧
    cexC4Waiting.timers = [(0, P1.TimerKind.longPush)] ∧
    P1.handleStatusEvent 200 { component := "input:1", state := false } cexC4Waiting =
      (cexC4Idle, [.httpGet (P1.turnEndpoint LIGHT_ACTIONS_TOGGLE)]) ∧
    cexC4Idle.state = MState.IDLE ∧
    cexC4Idle.timers = [(0, P1.TimerKind.longPush)] :=
  ⟨by decide, by decide, rfl, by decide, rfl, rfl⟩

/-- C4 amended: every entry into IDLE clears the trigger timestamp and the
pending dimming direction.  Only part_001 clears a timer at all, and only the
one whose handle is stored in DATA.timerHandle (the dimming loop timer);
enterWaitingForLongPush never stores the long push timer handle, so that timer
is never cancelled (in the part_000 variants no timer handle exists and
nothing is cancelled).  A stale long push timer can therefore fire after the
machine re-entered IDLE; its ENSURE_LIGHT_IS_ON request is then filtered by
the transition table. -/
theorem claim_C4_idle_entry_amended :
    (∀ (now : Int) (c : RD.Ctrl) (s : MState),
        c.state = some s → MState.IDLE ∈ TRANSITIONS s →
        RD.transitionTo now .IDLE c =
          .ok { state := some MState.IDLE, inputTriggerTime := 0,
                dimmerAction := DIMMER_ACTIONS_STOP, lightStatus := c.lightStatus }
            [.print "transitioning"]) ∧
    (∀ (now : Int) (c : P1.Ctrl), MState.IDLE ∈ TRANSITIONS c.state →
        P1.transitionTo now .IDLE c =
          ({ timerHandle := c.timerHandle, inputTriggerTime := 0, state := MState.IDLE,
             dimmerAction := DIMMER_ACTIONS_STOP, lightIsOn := c.lightIsOn,
             brightness := c.brightness, timers := P1.timerClear c.timerHandle c.timers,
             nextTimerId := c.nextTimerId }, [])) ∧
    (∀ (now : Int) (c : P1.Ctrl), c.state = MState.GET_LIGHT_STATUS →
        (P1.transitionTo now .WAITING_FOR_LONG_PUSH c).1.timerHandle = c.timerHandle ∧
        (P1.transitionTo now .WAITING_FOR_LONG_PUSH c).1.timers =
          c.timers ++ [(c.nextTimerId, P1.TimerKind.longPush)]) ∧
    (∀ c : P1.Ctrl, c.timerHandle = none → (P1.enterIdle c).timers = c.timers) ∧
    (∀ (c : P1.Ctrl) (h : Nat), c.timerHandle = some h →
        (P1.enterIdle c).timers = c.timers.filter (fun p => p.1 != h)) := by
  have h1 : MState.WAITING_FOR_LONG_PUSH ∈ TRANSITIONS MState.GET_LIGHT_STATUS := by decide
  refine ⟨?_, ?_, ?_, ?_, ?_⟩
  · intro now c s hs hmem
    simp [RD.rd_transitionTo_eq, RD.transitionBody, RD.transitionAllowed, RD.enterIdle, hs, hmem]
  · intro now c hmem
    simp [P1.p1_transitionTo_eq, P1.transitionBody, P1.enterIdle, hmem]
  · intro now c hs
    simp [P1.p1_transitionTo_eq, P1.transitionBody, P1.timerSet, hs, h1]
  · intro c hh
    simp [P1.enterIdle, P1.timerClear, hh]
  · intro c h hh
    simp [P1.enterIdle, P1.timerClear, hh]

/-- C4 witness: a concrete IDLE entry from DIMMING in the part_000
controller clears the two fields and produces no cancellation effect. -/
theorem claim_C4_witness :
    RD.transitionTo 300 .IDLE
        { state := some MState.DIMMING, inputTriggerTime := 42, dimmerAction := "down",
          lightStatus := some { ison := true, brightness := 70 } } =
      .ok { state := some MState.IDLE, inputTriggerTime := 0,
            dimmerAction := DIMMER_ACTIONS_STOP,
            lightStatus := some { ison := true, brightness := 70 } }
        [.print "transitioning"] :=
  claim_C4_idle_entry_amended.1 300
    { state := some MState.DIMMING, inputTriggerTime := 42, dimmerAction := "down",
      lightStatus := some { ison := true, brightness := 70 } } MState.DIMMING rfl (by decide)

/-- C6 counterexample: a status fetch of the part_000 controller that returns
a 2xx response whose body JSON.parse cannot parse is not guarded: the callback
throws instead of logging — contradicting the claim that a malformed body is a
logged, harmless failure. -/
theorem claim_C6_counterexample :
    RD.getLightStatusCb 120 { errorCode := 0, code := 200, body := .malformed }
        { state := some MState.GET_LIGHT_STATUS, inputTriggerTime := 0,
          dimmerAction := "up", lightStatus := none } =
      .crash := rfl

/-- C6 amended: for the part_000 controller status fetch — on success (2xx,
parseable body) the on/off and brightness values are recorded and the machine
transitions to WAITING_FOR_LONG_PUSH (arming the long push timer); on
transport error or non-2xx status the failure is logged, the continuation is
not invoked, the data record is unchanged and no retry request is issued; a
malformed body on a 2xx response however is unguarded and JSON.parse throws. -/
theorem claim_C6_status_fetch_amended :
    (∀ (now : Int) (r : HttpResponse) (ls : LightStatus) (c : RD.Ctrl),
        httpOk r = true → r.body = .light ls → c.state = some MState.GET_LIGHT_STATUS →
        RD.getLightStatusCb now r c =
          .ok { state := some MState.WAITING_FOR_LONG_PUSH,
                inputTriggerTime := c.inputTriggerTime, dimmerAction := c.dimmerAction,
                lightStatus := some ls }
            [.print "getLightStatus", .print "transitioning",
             .timerSet (max 1 (LONG_PUSH_TIME - mathRound (now - c.inputTriggerTime))) false]) ∧
    (∀ (now : Int) (r : HttpResponse) (c : RD.Ctrl), httpOk r = false →
        RD.getLightStatusCb now r c = .ok c [.print "Failed to get light status"]) ∧
    (∀ (now : Int) (r : HttpResponse) (c : RD.Ctrl),
        httpOk r = true → r.body = .malformed →
        RD.getLightStatusCb now r c = .crash) := by
  have h1 : MState.WAITING_FOR_LONG_PUSH ∈ TRANSITIONS MState.GET_LIGHT_STATUS := by decide
  refine ⟨?_, ?_, ?_⟩
  · intro now r ls c hok hb hs
    simp [RD.getLightStatusCb, hok, hb, jsonParse, RD.rd_transitionTo_eq, RD.transitionBody,
      RD.transitionAllowed, hs, h1]
  · intro now r c hok
    simp [RD.getLightStatusCb, hok]
  · intro now r c hok hb
    simp [RD.getLightStatusCb, hok, hb, jsonParse]

/-- C6 witness: a concrete successful fetch records the status and arms the
long push timer. -/
theorem claim_C6_witness :
    RD.getLightStatusCb 120 { errorCode := 0, code := 200, body := .light { ison := false, brightness := 25 } }
        { state := some MState.GET_LIGHT_STATUS, inputTriggerTime := 0,
          dimmerAction := "up", lightStatus := none } =
      .ok { state := some MState.WAITING_FOR_LONG_PUSH, inputTriggerTime := 0,
            dimmerAction := "up", lightStatus := some { ison := false, brightness := 25 } }
        [.print "getLightStatus", .print "transitioning",
         .timerSet (max 1 (LONG_PUSH_TIME - mathRound ((120 : Int) - 0))) false] :=
  claim_C6_status_fetch_amended.1 120
    { errorCode := 0, code := 200, body := .light { ison := false, brightness := 25 } }
    { ison := false, brightness := 25 }
    { state := some MState.GET_LIGHT_STATUS, inputTriggerTime := 0,
      dimmerAction := "up", lightStatus := none } rfl rfl rfl

namespace Loader

theorem indirectTest_isSome (a : RawAuth) (h : isInline a = false) :
    (indirectTest a).isSome := by
  cases a with
  | null0 => simp [indirectTest, authTruthy]
  | inline cred => simp [isInline] at h
  | ref s =>
      simp only [indirectTest, authTruthy]
      split <;> simp

theorem scanLoop_no_inline :
    ∀ (cfgs : List RawConfig) (t : Int),
      (∀ cfg ∈ cfgs, isInline cfg.dev.auth = false) →
      ∃ p : Nat,
        scanLoop cfgs t = some (t - ((cfgs.length : Int) - (p : Int)), p) := by
  intro cfgs
  induction cfgs with
  | nil =>
      intro t _
      exact ⟨0, by simp [scanLoop]⟩
  | cons cfg rest ih =>
      intro t h
      have hhead : isInline cfg.dev.auth = false := h cfg (by simp)
      have hrest : ∀ c ∈ rest, isInline c.dev.auth = false := fun c hc => h c (by simp [hc])
      have hsome := indirectTest_isSome cfg.dev.auth hhead
      rcases hb : indirectTest cfg.dev.auth with _ | b
      · rw [hb] at hsome; simp at hsome
      · cases b with
        | false =>
            rcases ih (t - 1) hrest with ⟨p, hscan⟩
            refine ⟨p, ?_⟩
            simp only [scanLoop, hb, hscan, List.length_cons, Option.some.injEq,
              Prod.mk.injEq]
            exact ⟨by push_cast; ring, trivial⟩
        | true =>
            rcases ih t hrest with ⟨p, hscan⟩
            refine ⟨p + 1, ?_⟩
            simp only [scanLoop, hb, hscan, List.length_cons, Option.some.injEq,
              Prod.mk.injEq]
            exact ⟨by push_cast; ring, trivial⟩

theorem proceedIfAllProcessed_configs (st : LoaderState) :
    (proceedIfAllProcessed st).configs = st.configs := by
  simp only [proceedIfAllProcessed]
  split <;> rfl

theorem completeOne_fired_toProcess (i : Nat) (res : Option AuthCred)
    (st : LoaderState) :
    (completeOne i res st).fired =
      (if st.toProcess - 1 = 0 then st.fired + 1 else st.fired) ∧
    (completeOne i res st).toProcess =
      (if st.toProcess - 1 = 0 then -1 else st.toProcess - 1) := by
  simp only [completeOne, proceedIfAllProcessed]
  split <;> simp_all

theorem runCompletions_fired :
    ∀ (l : List (Nat × Option AuthCred)) (st : LoaderState) (p : Nat),
      st.toProcess = (p : Int) → st.fired = 0 → 0 < p → l.length ≤ p →
      (runCompletions l st).fired = if l.length = p then 1 else 0 := by
  intro l
  induction l with
  | nil =>
      intro st p htp hf hp _
      have hne : ¬ (([] : List (Nat × Option AuthCred)).length = p) := by simp; omega
      simp only [runCompletions, List.foldl_nil, hne, if_false, hf]
  | cons x l2 ih =>
      intro st p htp hf hp hl
      have hco := completeOne_fired_toProcess x.1 x.2 st
      have hrun : runCompletions (x :: l2) st = runCompletions l2 (completeOne x.1 x.2 st) := by
        simp [runCompletions]
      by_cases hp1 : p = 1
      · subst hp1
        have hl2 : l2 = [] := by
          simp only [List.length_cons] at hl
          exact List.length_eq_zero.mp (by omega)
        subst hl2
        have ht0 : st.toProcess - 1 = 0 := by rw [htp]; norm_num
        have hfired : (completeOne x.1 x.2 st).fired = 1 := by
          rw [hco.1, if_pos ht0, hf]
        simp [hrun, runCompletions, hfired]
      · have htne : ¬ (st.toProcess - 1 = 0) := by rw [htp]; omega
        have hf1 : (completeOne x.1 x.2 st).fired = 0 := by rw [hco.1, if_neg htne, hf]
        have ht1 : (completeOne x.1 x.2 st).toProcess = ((p - 1 : Nat) : Int) := by
          rw [hco.2, if_neg htne, htp]; omega
        have hrec := ih (completeOne x.1 x.2 st) (p - 1) ht1 hf1 (by omega)
          (by simp only [List.length_cons] at hl; omega)
        rw [hrun, hrec]
        by_cases hcase : l2.length = p - 1
        · rw [if_pos hcase, if_pos (by simp only [List.length_cons]; omega)]
        · rw [if_neg hcase, if_neg (by simp only [List.length_cons]; omega)]

theorem setAuth_get :
    ∀ (cfgs : List RawConfig) (i : Nat) (a : RawAuth) (cfg : RawConfig),
      cfgs[i]? = some cfg →
      (setAuth cfgs i a)[i]? = some { cfg with dev := { cfg.dev with auth := a } } := by
  intro cfgs
  induction cfgs with
  | nil => intro i a cfg h; simp at h
  | cons x rest ih =>
      intro i a cfg h
      cases i with
      | zero =>
          simp only [List.getElem?_cons_zero, Option.some.injEq] at h
          subst h
          simp [setAuth]
      | succ j =>
          simp only [List.getElem?_cons_succ] at h
          simpa [setAuth] using ih j a cfg h

theorem mainControllersAux_get :
    ∀ (cfgs : List RawConfig) (k i : Nat) (cfg : RawConfig),
      cfgs[i]? = some cfg →
      (mainControllersAux k cfgs)[i]? =
        some (mkController (if cfg.id != "" then cfg.id else "dimmer-" ++ toString (k + i))
          cfg.btn (devConfigOf cfg)) := by
  intro cfgs
  induction cfgs with
  | nil => intro k i cfg h; simp at h
  | cons x rest ih =>
      intro k i cfg h
      cases i with
      | zero =>
          simp only [List.getElem?_cons_zero, Option.some.injEq] at h
          subst h
          simp [mainControllersAux]
      | succ j =>
          simp only [List.getElem?_cons_succ] at h
          have harith : k + 1 + j = k + (j + 1) := by omega
          have := ih (k + 1) j cfg h
          rw [harith] at this
          simpa [mainControllersAux] using this

end Loader

/-- C7 counterexample: a configuration list with one binding whose auth is an
inline credential object (a form §6 of the spec allows) makes getConfiguration
throw: the indirect test calls startsWith on the truthy auth value, and
substring is not a function of an object — so the ready callback is never
invoked, not exactly once. -/
theorem claim_C7_counterexample :
    Loader.loaderStart
      [{ id := "front", btn := [("0", "down"), ("1", "up")],
         dev := { addr := "192.168.3.127",
                  auth := .inline { id := "user", pw := "secret" } } }] = none := rfl

/-- C7 amended: for every configuration list none of whose entries carries an
inline credential object (auth absent or a string), the loader startup
succeeds, starts p indirect resolutions, and the ready callback is invoked
exactly once, exactly when the last of the p outstanding resolutions has
completed (in any order, with success or failure): after j completions the
callback has run once if j = p and not at all if j < p.  In particular for
p = 0 (no indirect references, or an empty list) it has already run exactly
once at the end of the synchronous scan. -/
theorem claim_C7_loader_ready_amended :
    ∀ cfgs : List Loader.RawConfig,
      (∀ cfg ∈ cfgs, Loader.isInline cfg.dev.auth = false) →
      ∃ (st : Loader.LoaderState) (p : Nat),
        Loader.loaderStart cfgs = some (st, p) ∧
        ∀ l : List (Nat × Option AuthCred), l.length ≤ p →
          (Loader.runCompletions l st).fired = if l.length = p then 1 else 0 := by
  intro cfgs h
  rcases Loader.scanLoop_no_inline cfgs (cfgs.length : Int) h with ⟨p, hscan⟩
  have hls : Loader.loaderStart cfgs =
      some (Loader.proceedIfAllProcessed
        { configs := cfgs,
          toProcess := (cfgs.length : Int) - ((cfgs.length : Int) - (p : Int)),
          fired := 0 }, p) := by
    simp [Loader.loaderStart, hscan]
  have ht : (cfgs.length : Int) - ((cfgs.length : Int) - (p : Int)) = (p : Int) := by ring
  rw [ht] at hls
  rcases Nat.eq_zero_or_pos p with hp0 | hppos
  · subst hp0
    refine ⟨_, 0, hls, ?_⟩
    intro l hl
    have hl0 : l = [] := List.length_eq_zero.mp (by omega)
    subst hl0
    simp [Loader.runCompletions, Loader.proceedIfAllProcessed]
  · have hne : ((p : Int)) ≠ 0 := by exact_mod_cast hppos.ne'
    have hproc : Loader.proceedIfAllProcessed
        { configs := cfgs, toProcess := (p : Int), fired := 0 } =
        { configs := cfgs, toProcess := (p : Int), fired := 0 } := by
      simp [Loader.proceedIfAllProcessed, hne]
    rw [hproc] at hls
    refine ⟨_, p, hls, ?_⟩
    intro l hl
    exact Loader.runCompletions_fired l _ p rfl rfl hppos hl

/-- A two-binding configuration list: one indirect credential reference, one
without credentials. -/
def cfgsC7 : List Loader.RawConfig :=
  [{ id := "front", btn := [("0", "down"), ("1", "up")],
     dev := { addr := "192.168.3.127", auth := .ref "@credentials1" } },
   { id := "back", btn := [("2", "down"), ("3", "up")],
     dev := { addr := "192.168.3.128", auth := .null0 } }]

/-- C7 witness: the amended claim at a concrete two-binding list. -/
theorem claim_C7_witness :
    ∃ (st : Loader.LoaderState) (p : Nat),
      Loader.loaderStart cfgsC7 = some (st, p) ∧
      ∀ l : List (Nat × Option AuthCred), l.length ≤ p →
        (Loader.runCompletions l st).fired = if l.length = p then 1 else 0 :=
  claim_C7_loader_ready_amended cfgsC7 (by decide)

/-- C9: a failed indirect credential lookup stores null as the binding auth
(the callback sets this.dev.auth = null); main still constructs one controller
for every configuration entry, failed or not; a null auth maps to no
credential in the DeviceConfig; and every request URL sendRequest builds for a
credential-less device is exactly http:// followed by the address and the
endpoint path — no user:password@ prefix is inserted. -/
theorem claim_C9_failed_credential_unauthenticated :
    (∀ (st : Loader.LoaderState) (i : Nat) (cfg : Loader.RawConfig),
        st.configs[i]? = some cfg →
        (Loader.completeOne i none st).configs[i]? =
          some { cfg with dev := { cfg.dev with auth := Loader.RawAuth.null0 } }) ∧
    (∀ (cfgs : List Loader.RawConfig) (i : Nat) (cfg : Loader.RawConfig),
        cfgs[i]? = some cfg →
        (Loader.mainControllers cfgs)[i]? =
          some (Loader.mkController
            (if cfg.id != "" then cfg.id else "dimmer-" ++ toString i)
            cfg.btn (Loader.devConfigOf cfg))) ∧
    (∀ cfg : Loader.RawConfig, cfg.dev.auth = Loader.RawAuth.null0 →
        Loader.devConfigOf cfg = { addr := cfg.dev.addr, auth := none }) ∧
    (∀ ep addr : String,
        sendRequestUrl ep { addr := addr, auth := none } =
          "http://" ++ addr ++ "/" ++ ep) := by
  refine ⟨?_, ?_, ?_, ?_⟩
  · intro st i cfg h
    have hset := Loader.setAuth_get st.configs i .null0 cfg h
    calc (Loader.completeOne i none st).configs[i]?
        = (Loader.setAuth st.configs i (Loader.resolveAuthResult none))[i]? := by
          rw [Loader.completeOne, Loader.proceedIfAllProcessed_configs]
      _ = some { cfg with dev := { cfg.dev with auth := Loader.RawAuth.null0 } } := by
          simpa [Loader.resolveAuthResult] using hset
  · intro cfgs i cfg h
    simpa [Loader.mainControllers] using Loader.mainControllersAux_get cfgs 0 i cfg h
  · intro cfg h
    simp [Loader.devConfigOf, Loader.authToOpt, h]
  · intro ep addr
    simp [sendRequestUrl]

/-- A loader state mid-resolution: one binding whose indirect reference is
being looked up. -/
def stC9 : Loader.LoaderState :=
  { configs := [{ id := "front", btn := [("0", "down"), ("1", "up")],
                  dev := { addr := "192.168.3.127", auth := .ref "@credentials1" } }],
    toProcess := 1, fired := 0 }

/-- C9 witness: after the lookup for binding 0 fails, its auth is null. -/
theorem claim_C9_witness :
    (Loader.completeOne 0 none stC9).configs[0]? =
      some { id := "front", btn := [("0", "down"), ("1", "up")],
             dev := { addr := "192.168.3.127", auth := Loader.RawAuth.null0 } } :=
  claim_C9_failed_credential_unauthenticated.1 stC9 0
    { id := "front", btn := [("0", "down"), ("1", "up")],
      dev := { addr := "192.168.3.127", auth := .ref "@credentials1" } } rfl

end ShellyDimmer
